import Mathlib

/-
Verification development for the Qualiwo conversational shopping-assistant
backend. Shallow embedding of:
  - the response-resolution engine of src/app.py (chat_endpoint, lines 160-277);
  - the session store fallback of src/services/cart_service.py and
    src/services/user_service.py (the in-process volatile branch, taken when
    the durable MongoDB backend is unavailable, i.e. Database.get_db() is None);
  - the tool handlers of src/services/tools.py;
  - the agent loop graph of src/services/agent_rotation.py
    (create_qualiwo_agent_rotation).
Python JSON values are modelled by the inductive JValue (numbers as Int:
no claim performs float arithmetic); Python dicts by insertion-ordered
association lists; json.loads by an abstract parse oracle passed as a
parameter; raised exceptions by Except.
-/

set_option autoImplicit false
set_option linter.unusedVariables false

namespace Qualiwo

/-- JSON-like values as produced by json.loads and the tool handlers. -/
inductive JValue where
  | jnull
  | jbool (b : Bool)
  | jnum (n : Int)
  | jstr (s : String)
  | jarr (xs : List JValue)
  | jobj (fields : List (String × JValue))

/-- First-match lookup in an insertion-ordered association list (Python dict read). -/
def alistLookup {α : Type} : List (String × α) → String → Option α
  | [], _ => none
  | (k0, v0) :: rest, k => if k0 = k then some v0 else alistLookup rest k

/-- Update-or-append in an association list (Python dict assignment d[k] = v). -/
def alistSet {α : Type} : List (String × α) → String → α → List (String × α)
  | [], k, v => [(k, v)]
  | (k0, v0) :: rest, k, v =>
      if k0 = k then (k0, v) :: rest else (k0, v0) :: alistSet rest k v

/-- Dictionary field access on a JValue object; none when absent or not an object. -/
def jGet : JValue → String → Option JValue
  | .jobj fields, k => alistLookup fields k
  | _, _ => none

/-- Python truthiness of a JSON value. -/
def JValue.truthy : JValue → Bool
  | .jnull => false
  | .jbool b => b
  | .jnum n => n != 0
  | .jstr s => s != ""
  | .jarr xs => !xs.isEmpty
  | .jobj fs => !fs.isEmpty

/-- A tool-invocation request attached to an assistant message
(langchain tool_call dict: the id and name keys used by chat_endpoint). -/
structure ToolCall where
  id : String
  name : String
deriving DecidableEq

/-- A transcript message, as inspected by chat_endpoint: assistant messages
carry content plus tool_calls; ToolMessages carry tool_call_id plus their
serialized content string; system messages are inserted by the agent node. -/
inductive TMsg where
  | system (content : String)
  | human (content : String)
  | assistant (content : String) (tool_calls : List ToolCall)
  | toolResult (tool_call_id : String) (content : String)
deriving DecidableEq

/-- The content attribute read by chat_endpoint on the last message. -/
def contentOf : TMsg → String
  | .system c => c
  | .human c => c
  | .assistant c _ => c
  | .toolResult _ c => c

/-- The resolved output of one chat request (ChatResponse message plus
UIAction type and data from app.py). ui_action is a JValue because the
code copies the parsed ui_action field without validating it is a string. -/
structure Directive where
  message : JValue
  uiAction : JValue
  data : Option JValue

/-- Python whitespace for str.strip (ASCII subset; the texts involved carry
no exotic unicode whitespace). -/
def pyIsSpace (c : Char) : Bool :=
  c == ' ' || c == '\t' || c == '\n' || c == '\r'

/-- Python str.strip(): drop leading and trailing whitespace. -/
def pyStrip (s : String) : String :=
  String.mk (((s.toList.dropWhile pyIsSpace).reverse.dropWhile pyIsSpace).reverse)

/-- Character-list prefix test. -/
def listStartsWith : List Char → List Char → Bool
  | _, [] => true
  | [], _ :: _ => false
  | c :: cs, p :: ps => c == p && listStartsWith cs ps

/-- Python s.startswith(p). -/
def pyStartsWith (s p : String) : Bool :=
  listStartsWith s.toList p.toList

/-- Python slicing s[n:] by code points. -/
def pyDrop (s : String) (n : Nat) : String :=
  String.mk (s.toList.drop n)

/-- The text before the first occurrence of a (non-empty) separator:
Python s.split(sep)[0]. -/
def splitFirstAux : List Char → List Char → List Char
  | [], _ => []
  | c :: cs, sep =>
      if listStartsWith (c :: cs) sep then []
      else c :: splitFirstAux cs sep

/-- Python s.split(sep)[0]. -/
def pySplitFirst (s sep : String) : String :=
  String.mk (splitFirstAux s.toList sep.toList)

/-- Python str.upper() (ASCII). -/
def pyUpper (s : String) : String :=
  String.mk (s.toList.map Char.toUpper)

/-- Markdown fence stripping of app.py lines 173-177: strip, drop a leading
three-backtick json fence or bare three-backtick fence, cut at the closing
fence, strip again. -/
def stripFences (s : String) : String :=
  let c := pyStrip s
  if pyStartsWith c "```json" then
    pyStrip (pySplitFirst (pyDrop c 7) "```")
  else if pyStartsWith c "```" then
    pyStrip (pySplitFirst (pyDrop c 3) "```")
  else c

/-- Pass 1 of resolution (app.py lines 169-197): parse the cleaned final text;
on a JSON object extract message / ui_action (kept unless it equals the
string NONE) / data (kept when truthy); on any parse failure or non-object
keep the raw text, ui_action NONE and no data. Returns
(agent_output, ui_action_type, ui_data). -/
def pass1 (parse : String → Option JValue) (raw : String) :
    JValue × JValue × Option JValue :=
  match parse (stripFences raw) with
  | some (.jobj fields) =>
      let msg := match alistLookup fields "message" with
        | some v => v
        | none => .jstr raw
      let ua := match alistLookup fields "ui_action" with
        | some (.jstr s) => if s = "NONE" then .jstr "NONE" else .jstr s
        | some v => v
        | none => .jstr "NONE"
      let d := match alistLookup fields "data" with
        | some v => if v.truthy then some v else none
        | none => none
      (msg, ua, d)
  | _ => (.jstr raw, .jstr "NONE", none)

/-- The fixed tool-name → ui_action table of app.py lines 215-222 (the
if/elif chain on tool_name, as a lookup). -/
def toolUiAction (s : String) : Option String :=
  if s = "product_search_tool" then some "RENDER_PRODUCTS"
  else if s = "show_cart_tool" then some "RENDER_CART"
  else if s = "collect_user_info_tool" then some "REQUEST_INFO"
  else if s = "process_payment_tool" then some "RENDER_PAYMENT"
  else none

/-- One iteration of the inner tool_calls loop of app.py lines 209-222:
record id → name in the map when the id is truthy, and overwrite the
tentative ui_action per the if/elif chain on the tool name. -/
def scanToolCall (acc : List (String × String) × JValue) (tc : ToolCall) :
    List (String × String) × JValue :=
  let m := if tc.id = "" then acc.1 else alistSet acc.1 tc.id tc.name
  let ua :=
    if tc.name = "product_search_tool" then JValue.jstr "RENDER_PRODUCTS"
    else if tc.name = "show_cart_tool" then JValue.jstr "RENDER_CART"
    else if tc.name = "collect_user_info_tool" then JValue.jstr "REQUEST_INFO"
    else if tc.name = "process_payment_tool" then JValue.jstr "RENDER_PAYMENT"
    else acc.2
  (m, ua)

/-- One iteration of the outer message loop of app.py lines 207-222: only
messages carrying tool_calls contribute. -/
def scanMsg1 (acc : List (String × String) × JValue) (msg : TMsg) :
    List (String × String) × JValue :=
  match msg with
  | .assistant _ tcs => tcs.foldl scanToolCall acc
  | _ => acc

/-- Pass 2a (app.py lines 204-222): build the call-id → tool-name map and
override the ui_action with the last mapped tool call. -/
def pass2a (msgs : List TMsg) (ua0 : JValue) :
    List (String × String) × JValue :=
  msgs.foldl scanMsg1 ([], ua0)

/-- One iteration of the ToolMessage loop of app.py lines 225-268: resolve the
tool name via the map; for product_search keep the items field when the
parsed content is an object carrying one; for show_cart and process_payment
take the whole parsed payload (raw string on parse failure). -/
def scanMsg2 (parse : String → Option JValue) (map : List (String × String))
    (acc : Option JValue) (msg : TMsg) : Option JValue :=
  match msg with
  | .toolResult cid content =>
      let tool_name := alistLookup map cid
      if tool_name = some "product_search_tool" then
        let data := (parse content).getD (.jstr content)
        match data with
        | .jobj fields =>
            match alistLookup fields "items" with
            | some items => some items
            | none => acc
        | _ => acc
      else if tool_name = some "show_cart_tool" then
        some ((parse content).getD (.jstr content))
      else if tool_name = some "process_payment_tool" then
        some ((parse content).getD (.jstr content))
      else acc
  | _ => acc

/-- The raw agent output taken from the last transcript message
(app.py lines 160-163), the empty string on an empty transcript. -/
def rawOf (msgs : List TMsg) : String :=
  match msgs.getLast? with
  | some m => contentOf m
  | none => ""

/-- The response-resolution engine of chat_endpoint (app.py lines 160-277):
pass 1 on the final text, then pass 2 over the whole transcript, tool-call
ground truth overriding the self-reported values. -/
def chat_resolve (parse : String → Option JValue) (msgs : List TMsg) : Directive :=
  let p1 := pass1 parse (rawOf msgs)
  let p2 := pass2a msgs p1.2.1
  let d2 := msgs.foldl (scanMsg2 parse p2.1) p1.2.2
  ⟨p1.1, p2.2, d2⟩

/-- The flattened list of ui_actions of the mapped tool calls, in transcript
order (specification of the overwrite chain of pass 2a). -/
def mappedActions (msgs : List TMsg) : List String :=
  (msgs.map fun m =>
    match m with
    | .assistant _ tcs => tcs.filterMap (fun tc => toolUiAction tc.name)
    | _ => []).flatten

/-- The transcript a later chat request sees for a session: the retained
history followed by the new turn. Models the conversation memory of
create_qualiwo_agent (checkpointer=MemorySaver, agent.py line 293) together
with the add_messages accumulation of AgentState (agent_rotation.py line 28):
each request appends its messages to the state stored under the thread_id. -/
def sessionTranscript (history newTurn : List TMsg) : List TMsg :=
  history ++ newTurn

/-!  Session store: the in-process volatile fallback branch of
cart_service.py / user_service.py, taken whenever Database.get_db() is None
(MONGODB_URI absent or the connection failed, database.py lines 14-31). -/

/-- A cart item as built by CartService.add_to_cart (cart_service.py
lines 32-39): keys id, name, price, image, quantity, added_at. The price is
stored as passed by the tool (modelled as Int: no claim computes with it). -/
structure CartItem where
  id : String
  name : String
  price : Int
  image : Option String
  quantity : Int
  added_at : Nat
deriving DecidableEq

/-- The product_data dict built by add_to_cart_tool (tools.py lines 304-310). -/
structure ProductData where
  id : String
  name : String
  price : Int
  currency : String
  image_url : Option String
deriving DecidableEq

/-- The volatile session store: _in_memory_carts and _in_memory_users. -/
structure Store where
  carts : List (String × List CartItem)
  users : List (String × List (String × String))
deriving DecidableEq

/-- The empty store at process start. -/
def Store.empty : Store := ⟨[], []⟩

namespace CartService

/-- CartService.get_cart, fallback branch (cart_service.py line 24):
a session with no prior activity has an empty cart. -/
def get_cart (st : Store) (user_id : String) : List CartItem :=
  (alistLookup st.carts user_id).getD []

/-- The merge step of CartService.add_to_cart (cart_service.py lines 77-83):
the first item with the same id gets its quantity incremented, otherwise the
new item is appended. -/
def mergeItem : List CartItem → CartItem → Int → List CartItem
  | [], item, _ => [item]
  | i :: rest, item, quantity =>
      if i.id = item.id then { i with quantity := i.quantity + quantity } :: rest
      else i :: mergeItem rest item quantity

/-- CartService.add_to_cart, fallback branch (cart_service.py lines 27-84):
build the item dict, then merge it into the cart of user_id. The image falls
back from a truthy image_url (the images dict of the product_data built by
add_to_cart_tool is always absent). Always reports success. -/
def add_to_cart (st : Store) (user_id : String) (product : ProductData)
    (quantity : Int) (now : Nat) : Store :=
  let item : CartItem :=
    { id := product.id
      name := product.name
      price := product.price
      image := match product.image_url with
        | some s => if s = "" then none else some s
        | none => none
      quantity := quantity
      added_at := now }
  let items := (alistLookup st.carts user_id).getD []
  { st with carts := alistSet st.carts user_id (mergeItem items item quantity) }

/-- CartService.clear_cart, fallback branch (cart_service.py lines 97-99):
the entry is emptied, not removed, when present. -/
def clear_cart (st : Store) (user_id : String) : Store :=
  if (alistLookup st.carts user_id).isSome then
    { st with carts := alistSet st.carts user_id [] }
  else st

end CartService

namespace UserService

/-- UserService.save_user_info, fallback branch (user_service.py lines 29-33):
field-by-field upsert of the profile of user_id. -/
def save_user_info (st : Store) (user_id field value : String) : Store :=
  let u := (alistLookup st.users user_id).getD []
  { st with users := alistSet st.users user_id (alistSet u field value) }

end UserService

/-! Tool handlers of tools.py, run against the volatile store. Tool results
are the JSON dicts the handlers return; the session id is the thread_id
extracted from the RunnableConfig. -/

/-- Serialization of a cart item back to a JSON dict (the shape stored by
cart_service and echoed by show_cart_tool). -/
def CartItem.toJson (i : CartItem) : JValue :=
  .jobj [("id", .jstr i.id), ("name", .jstr i.name), ("price", .jnum i.price),
         ("image", match i.image with | some s => .jstr s | none => .jnull),
         ("quantity", .jnum i.quantity), ("added_at", .jnum (Int.ofNat i.added_at))]

/-- show_cart_tool (tools.py lines 206-261): a pure read of the cart; the
fallback store never raises, so the success branch always runs. -/
def show_cart_tool (st : Store) (user_id : String) (action : String) : JValue :=
  let items := CartService.get_cart st user_id
  .jobj [("showCart", .jbool true), ("action", .jstr action),
         ("message", .jstr ("Displaying cart (action: " ++ action ++ ")")),
         ("items", .jarr (items.map CartItem.toJson))]

/-- add_to_cart_tool (tools.py lines 264-333): build product_data, write via
the cart service, report success. In the fallback branch the service always
returns True and never raises, so the success dict is always returned. -/
def add_to_cart_tool (st : Store) (user_id : String) (product_id name : String)
    (price : Int) (currency : String) (quantity : Int)
    (image_url : Option String) (now : Nat) : JValue × Store :=
  let product : ProductData :=
    { id := product_id, name := name, price := price, currency := currency
      image_url := image_url }
  let st1 := CartService.add_to_cart st user_id product quantity now
  (.jobj [("success", .jbool true),
          ("message", .jstr ("Product " ++ name ++ " (quantity: " ++
            toString quantity ++ ") added to cart")),
          ("product_id", .jstr product_id), ("quantity", .jnum quantity)], st1)

/-- Modelled from the spec: the structural validation of tool arguments
against the declared schema of add_to_cart_tool (product_id: str, name: str,
price: float, currency: str = "EUR", quantity: int = 1,
image_url: Optional[str]). The handler body performs no validation; the
layer enforcing the declared schema before the handler runs is outside src,
and per the spec it must "reject (return failure, not raise) when price or
product_id is structurally invalid". Numbers stand for the float/int
arguments. -/
def add_to_cart_tool_invoke (st : Store) (user_id : String)
    (args : List (String × JValue)) (now : Nat) : JValue × Store :=
  let invalid : JValue × Store :=
    (.jobj [("success", .jbool false),
            ("message", .jstr "Invalid tool arguments")], st)
  match alistLookup args "product_id", alistLookup args "name",
        alistLookup args "price" with
  | some (.jstr product_id), some (.jstr name), some (.jnum price) =>
      let currency := match alistLookup args "currency" with
        | some (.jstr c) => some c
        | none => some "EUR"
        | _ => none
      let quantity := match alistLookup args "quantity" with
        | some (.jnum q) => some q
        | none => some 1
        | _ => none
      let image := match alistLookup args "image_url" with
        | some (.jstr s) => some (some s)
        | some .jnull => some none
        | none => some none
        | _ => none
      match currency, quantity, image with
      | some c, some q, some img =>
          add_to_cart_tool st user_id product_id name price c q img now
      | _, _, _ => invalid
  | _, _, _ => invalid

/-- collect_user_info_tool (tools.py lines 336-365): minimal validation then
field upsert. -/
def collect_user_info_tool (st : Store) (user_id field value : String) :
    JValue × Store :=
  if field = "first_name" ∧ value.length < 2 then
    (.jobj [("success", .jbool false), ("message", .jstr "First name too short")], st)
  else if field = "phone" ∧ value.length < 8 then
    (.jobj [("success", .jbool false), ("message", .jstr "Phone number too short")], st)
  else
    let st1 := UserService.save_user_info st user_id field value
    (.jobj [("success", .jbool true), ("field", .jstr field),
            ("value", .jstr value),
            ("message", .jstr ("Information collected: " ++ field ++ " = " ++ value))],
     st1)

/-- process_payment_tool (tools.py lines 368-395): persist the two profile
fields, read the cart, fail on an empty cart, otherwise clear the cart and
mint a payment id from the upper-cased first name and the current time. -/
def process_payment_tool (st : Store) (user_id first_name phone : String)
    (now : Nat) : JValue × Store :=
  let st1 := UserService.save_user_info st user_id "first_name" first_name
  let st2 := UserService.save_user_info st1 user_id "phone" phone
  let cart_items := CartService.get_cart st2 user_id
  if cart_items.isEmpty then
    (.jobj [("success", .jbool false), ("message", .jstr "Le panier est vide.")], st2)
  else
    let st3 := CartService.clear_cart st2 user_id
    (.jobj [("success", .jbool true),
            ("message", .jstr ("Paiement confirmé pour " ++ first_name)),
            ("payment_id", .jstr ("PAY_" ++ pyUpper first_name ++ "_" ++ toString now)),
            ("status", .jstr "completed")], st3)

/-! Agent loop of create_qualiwo_agent_rotation (agent_rotation.py
lines 125-168): agent node → should_continue → tools node → agent node. -/

/-- Stand-in for prompts.SYSTEM_PROMPT; its literal contents are excluded
from the spec and play no role in the loop structure. -/
def SYSTEM_PROMPT : String := "Qualiwo system prompt"

/-- The message list handed to the model by agent_node (agent_rotation.py
lines 131-139): the system prompt is inserted locally when the first stored
message is not already a system message; the insertion is not persisted. -/
def withSystem (msgs : List TMsg) : List TMsg :=
  match msgs with
  | .system _ :: _ => msgs
  | _ => .system SYSTEM_PROMPT :: msgs

/-- The compiled graph of create_qualiwo_agent_rotation, run for a bounded
number of agent steps: each step invokes the model, appends its answer, and
per should_continue (agent_rotation.py lines 142-147) either stops (no
tool_calls: the END edge) or executes the tools, appends their results and
loops. `none` means the loop is still running after the given number of
agent steps: the graph itself has no iteration counter and no error edge. -/
def loopRun (model : List TMsg → String × List ToolCall)
    (execTools : List ToolCall → List TMsg) :
    List TMsg → Nat → Option (List TMsg)
  | _, 0 => none
  | msgs, Nat.succ n =>
      let out := model (withSystem msgs)
      let msgs1 := msgs ++ [TMsg.assistant out.1 out.2]
      if out.2.isEmpty then some msgs1
      else loopRun model execTools (msgs1 ++ execTools out.2) n

/-- A model that requests a tool invocation on every call: the pathological
input of the loop-convergence claim. -/
def modelAlwaysToolCalls : List TMsg → String × List ToolCall :=
  fun _ => ("", [⟨"call_1", "product_search_tool"⟩])

/-- A tool executor answering every request with a fixed payload (the
ToolNode of agent_rotation.py line 153; the payload is irrelevant to the
loop structure). -/
def execToolsStub : List ToolCall → List TMsg :=
  fun tcs => tcs.map (fun tc => TMsg.toolResult tc.id "ok")

/-! product_search_tool (tools.py lines 22-203). The outbound HTTP call is an
external collaborator; its outcome (transport failure, HTTP status plus the
result of response.json()) is the input of the embedding. The body of the
handler runs inside one try/except, so every Python exception raised while
processing the response is modelled in the Except monad and caught at the
top, yielding the empty degraded result. -/

/-- The outcome of httpx.post against the search collaborator: either the
call raised (transport failure), or a response with a status code whose
.json() either parsed to a value or raised. Error strings carry str(e). -/
inductive SearchOutcome where
  | transportError (msg : String)
  | response (status : Nat) (body : Except String JValue)

/-- Python computations that may raise, carrying str(e). -/
abbrev Py := Except String

/-- Python v.get(k, default): raises AttributeError on a non-dict receiver. -/
def dictGetD : JValue → String → JValue → Py JValue
  | .jobj fs, k, d => pure ((alistLookup fs k).getD d)
  | _, _, _ => Except.error "AttributeError: get"

/-- Python v.get(k) with the implicit None default. -/
def dictGet (v : JValue) (k : String) : Py JValue := dictGetD v k .jnull

/-- Python len(v): defined on lists, strings and dicts. -/
def pyLen : JValue → Py Nat
  | .jarr xs => pure xs.length
  | .jstr s => pure s.length
  | .jobj fs => pure fs.length
  | _ => Except.error "TypeError: len"

/-- Python iteration (for p in v): list elements, string characters, dict keys. -/
def pyIter : JValue → Py (List JValue)
  | .jarr xs => pure xs
  | .jstr s => pure (s.toList.map (fun c => JValue.jstr (String.mk [c])))
  | .jobj fs => pure (fs.map (fun kv => JValue.jstr kv.1))
  | _ => Except.error "TypeError: not iterable"

mutual
/-- Python repr of a JSON value (used by str() on non-string values). -/
def pyRepr : JValue → String
  | .jnull => "None"
  | .jbool true => "True"
  | .jbool false => "False"
  | .jnum n => toString n
  | .jstr s => "\x27" ++ s ++ "\x27"
  | .jarr xs => "[" ++ pyReprList xs ++ "]"
  | .jobj fs => "\x7b" ++ pyReprFields fs ++ "\x7d"

def pyReprList : List JValue → String
  | [] => ""
  | [x] => pyRepr x
  | x :: y :: rest => pyRepr x ++ ", " ++ pyReprList (y :: rest)

def pyReprFields : List (String × JValue) → String
  | [] => ""
  | [(k, v)] => "\x27" ++ k ++ "\x27: " ++ pyRepr v
  | (k, v) :: f :: rest => "\x27" ++ k ++ "\x27: " ++ pyRepr v ++ ", " ++ pyReprFields (f :: rest)
end

/-- Python str() as used inside f-strings. -/
def pyStr : JValue → String
  | .jstr s => s
  | v => pyRepr v

/-- Python sep.join(v): every iterated element must be a string. -/
def pyJoin (sep : String) (v : JValue) : Py String := do
  let elems ← pyIter v
  let strs ← elems.mapM (fun e =>
    match e with
    | .jstr s => pure s
    | _ => Except.error "TypeError: join expects str")
  pure (String.intercalate sep strs)

/-- The defaults table of tools.py lines 163-169. -/
def itemDefaults : List (String × JValue) :=
  [("brand", .jnull), ("short_description", .jnull), ("tags", .jarr []),
   ("keywords", .jarr []), ("sku", .jnull)]

/-- One step of the defaults loop of tools.py lines 170-172: set the key when
missing. -/
def setDefault (fs : List (String × JValue)) (k : String) (v : JValue) :
    List (String × JValue) :=
  if (alistLookup fs k).isSome then fs else alistSet fs k v

/-- The defaults loop of tools.py lines 170-172: set each missing key. -/
def applyDefaults (fs : List (String × JValue)) : List (String × JValue) :=
  itemDefaults.foldl (fun acc kv => setDefault acc kv.1 kv.2) fs

/-- The per-item normalization of tools.py lines 149-174: copy, force
type=product, materialize a dict meta when missing or None, copy a top-level
source into meta.source (defaulting a falsy one to Qualiwo), then fill the
defaults. A non-dict item raises (no .copy / item assignment), a present
non-dict meta raises when a source key forces the meta.source assignment. -/
def normalizeItem : JValue → Py (List (String × JValue))
  | .jobj fields => do
      let f1 := alistSet fields "type" (.jstr "product")
      let metaMissing := match alistLookup f1 "meta" with
        | none => true
        | some .jnull => true
        | some _ => false
      let f2 := if metaMissing then alistSet f1 "meta" (.jobj []) else f1
      let f3 ← match alistLookup f2 "source" with
        | some srcv =>
            match alistLookup f2 "meta" with
            | some (JValue.jobj metaFields) =>
                let sv := if srcv.truthy then srcv else .jstr "Qualiwo"
                pure (alistSet f2 "meta" (.jobj (alistSet metaFields "source" sv)))
            | _ => Except.error "TypeError: item assignment on non-dict meta"
        | none => pure f2
      pure (applyDefaults f3)
  | _ => Except.error "AttributeError: copy on non-dict item"

/-- One line of the AI-readable summary (tools.py lines 181-189). -/
def summaryLine (i : Nat) (p : List (String × JValue)) : Py String := do
  let brandv := (alistLookup p "brand").getD .jnull
  let metav := (alistLookup p "meta").getD (.jobj [])
  let srcv ← dictGet metav "source"
  let brand := if brandv.truthy then brandv
    else if srcv.truthy then srcv else .jstr "Unknown Brand"
  let price_info := (alistLookup p "price").getD (.jobj [])
  let price ← dictGetD price_info "amount" (.jstr "N/A")
  let currency ← dictGetD price_info "currency" (.jstr "EUR")
  let categories ← pyJoin ", " ((alistLookup p "categories").getD (.jarr [.jstr "N/A"]))
  let namev := (alistLookup p "name").getD .jnull
  pure (toString (i + 1) ++ ". \"" ++ pyStr namev ++ "\" - " ++ pyStr brand ++
    " - " ++ pyStr price ++ " " ++ pyStr currency ++ " - Categories: " ++ categories)

/-- The degraded result shape of the error branches of product_search_tool. -/
def emptySearchResult (summary : String) : JValue :=
  .jobj [("items", .jarr []), ("totalFound", .jnum 0),
         ("productsSummary", .jstr summary)]

/-- The try-block of product_search_tool (tools.py lines 127-196): status
check, results extraction, normalization and summary generation, with every
dynamic error surfacing in Py. -/
def product_search_run (query : String) (outcome : SearchOutcome) : Py JValue := do
  match outcome with
  | .transportError m => Except.error m
  | .response status body =>
      if status ≠ 200 then
        pure (emptySearchResult ("Error during search: Status " ++ toString status))
      else do
        let data ← match body with
          | .ok v => pure v
          | .error e => Except.error e
        let results ← dictGetD data "results" (.jarr [])
        let rlen ← pyLen results
        let totalFound ← dictGetD data "count" (.jnum (Int.ofNat rlen))
        let elems ← pyIter results
        let normalized ← elems.mapM normalizeItem
        let productsSummary ←
          if normalized.isEmpty then
            pure ("No products found for \"" ++ query ++ "\".")
          else do
            let lines ← (normalized.take 5).enum.mapM (fun ip => summaryLine ip.1 ip.2)
            pure ("Found " ++ pyStr totalFound ++ " products for \"" ++ query ++
              "\":\n" ++ String.intercalate "\n" lines)
        pure (.jobj [("items", .jarr (normalized.map JValue.jobj)),
                     ("totalFound", totalFound),
                     ("productsSummary", .jstr productsSummary)])

/-- product_search_tool (tools.py lines 22-203): the try/except wrapper. The
limit argument only feeds the outbound payload, whose effect is already
summarized by the outcome. -/
def product_search_tool (query : String) (limit : Int) (outcome : SearchOutcome) :
    JValue :=
  match product_search_run query outcome with
  | .ok v => v
  | .error e => emptySearchResult ("Error during search: " ++ e)

/-! Auxiliary specification-side definitions used by the theorems. -/

/-- The fixed ui_action enum of the Directive data model. -/
def uiActionEnum : List JValue :=
  [.jstr "NONE", .jstr "RENDER_PRODUCTS", .jstr "RENDER_CART",
   .jstr "REQUEST_INFO", .jstr "RENDER_PAYMENT"]

/-- A message carrying no tool-invocation request. -/
def noToolCallMsg : TMsg → Bool
  | .assistant _ tcs => tcs.isEmpty
  | _ => true

/-- A message carrying neither a tool-invocation request nor a tool result
(a turn in which no tool ran at all). -/
def noToolActivityMsg : TMsg → Bool
  | .assistant _ tcs => tcs.isEmpty
  | .toolResult _ _ => false
  | _ => true

/-- Keep the first option when present, the second otherwise (the
assign-or-keep shape of the ui_data loop accumulator). -/
def orElseK {β : Type} (o : Option β) (acc : Option β) : Option β :=
  match o with
  | some v => some v
  | none => acc

/-- The ui_data assignment a single message performs in the ToolMessage loop,
when it performs one (the loop body of app.py lines 225-268 either assigns a
value that does not depend on the accumulator, or keeps it). -/
def msgDataAssign (parse : String → Option JValue) (map : List (String × String))
    (msg : TMsg) : Option JValue :=
  scanMsg2 parse map none msg

/-- The last ui_data assignment performed by a transcript, given the call-id
map. -/
def lastAssign (parse : String → Option JValue) (map : List (String × String))
    (msgs : List TMsg) : Option JValue :=
  (msgs.filterMap (msgDataAssign parse map)).getLast?

/-- The call-id → tool-name map chat_resolve builds for a transcript. -/
def resolveCallMap (parse : String → Option JValue) (msgs : List TMsg) :
    List (String × String) :=
  (pass2a msgs (pass1 parse (rawOf msgs)).2.1).1

/-! Concrete inputs for witnesses and counterexamples. -/

/-- A final assistant JSON self-reporting ui_action NONE, as parsed. -/
def parsedFinalNone : JValue :=
  .jobj [("message", .jstr "Here are the products."), ("ui_action", .jstr "NONE")]

/-- A parse oracle for the witness transcript: the final text parses to a
JSON object declaring ui_action NONE; everything else fails to parse. -/
def parseDemo : String → Option JValue :=
  fun s => if s = "final answer json" then some parsedFinalNone else none

/-- A completed loop transcript containing a successful product_search tool
call whose final assistant JSON declares ui_action NONE. -/
def demoTranscript : List TMsg :=
  [.human "show me kitchen items",
   .assistant "" [⟨"call_1", "product_search_tool"⟩],
   .toolResult "call_1" "search results",
   .assistant "final answer json" []]

/-- A parse oracle under which the final text parses to a JSON object whose
ui_action is an arbitrary string outside the enum and whose message is empty. -/
def parseOffEnum : String → Option JValue :=
  fun s =>
    if s = "off enum json" then
      some (.jobj [("message", .jstr ""), ("ui_action", .jstr "RENDER_SPACESHIP")])
    else none

/-- A transcript with a non-empty user message, a healthy final answer and no
tool calls, whose final JSON self-reports an off-enum ui_action. -/
def offEnumTranscript : List TMsg :=
  [.human "hello", .assistant "off enum json" []]

/-- A parse oracle that fails on every input (a final answer that is not
valid JSON). -/
def parseNever : String → Option JValue := fun _ => none

/-- A parse oracle whose final JSON self-reports an in-enum ui_action. -/
def parseEnumOk : String → Option JValue :=
  fun s =>
    if s = "cart json" then
      some (.jobj [("message", .jstr "Your cart"), ("ui_action", .jstr "RENDER_CART")])
    else none

/-- A transcript with no tool calls whose final JSON self-reports RENDER_CART. -/
def enumOkTranscript : List TMsg :=
  [.human "cart please", .assistant "cart json" []]

/-- A transcript whose final answer is malformed JSON and which contains no
tool calls at all. -/
def malformedTranscript : List TMsg :=
  [.human "hi", .assistant "not a json payload" []]

/-- A 200 response whose single result item is an empty object: it lacks both
an identifying id and a name. -/
def itemNoIdOutcome : SearchOutcome :=
  .response 200 (.ok (.jobj [("results", .jarr [.jobj []]), ("count", .jnum 1)]))

/-- One add_to_cart invocation, as replayed against the store. -/
structure AddOp where
  user_id : String
  product : ProductData
  quantity : Int
  now : Nat

/-- Replay a sequence of add_to_cart calls against the fresh volatile store. -/
def runAdds (ops : List AddOp) : Store :=
  ops.foldl
    (fun st op => CartService.add_to_cart st op.user_id op.product op.quantity op.now)
    Store.empty

/-- The per-session cart invariant: at most one CartItem per product id. -/
def cartIdsNodup (st : Store) : Prop :=
  ∀ user_id, ((CartService.get_cart st user_id).map (fun i => i.id)).Nodup

/-- The product of the double-add scenario. -/
def demoProduct : ProductData :=
  { id := "p1", name := "Produit", price := 5, currency := "EUR", image_url := none }

/-- Structural test: the optional argument is a JSON string. -/
def isStrArg : Option JValue → Bool
  | some (.jstr _) => true
  | _ => false

/-- Structural test: the optional argument is a JSON number. -/
def isNumArg : Option JValue → Bool
  | some (.jnum _) => true
  | _ => false

/-- An add_to_cart invocation whose price argument is a string, not a number. -/
def invalidPriceArgs : List (String × JValue) :=
  [("product_id", .jstr "p1"), ("name", .jstr "Produit"), ("price", .jstr "cheap")]

/-- What normalization guarantees for an output item, relative to its raw
collaborator item: type forced to product, the five defaultable keys present
(null / empty-list valued when absent from the raw item), a meta key
present, and meta.source set exactly from a raw source field (a falsy one
replaced by Qualiwo). Noticeably absent: any requirement on id or name. -/
def NormalizedItemOk (fields out : List (String × JValue)) : Prop :=
  alistLookup out "type" = some (.jstr "product") ∧
  (alistLookup out "brand").isSome ∧
  (alistLookup out "short_description").isSome ∧
  (alistLookup out "tags").isSome ∧
  (alistLookup out "keywords").isSome ∧
  (alistLookup out "sku").isSome ∧
  (alistLookup out "meta").isSome ∧
  (alistLookup fields "brand" = none → alistLookup out "brand" = some .jnull) ∧
  (alistLookup fields "short_description" = none →
    alistLookup out "short_description" = some .jnull) ∧
  (alistLookup fields "tags" = none → alistLookup out "tags" = some (.jarr [])) ∧
  (alistLookup fields "keywords" = none → alistLookup out "keywords" = some (.jarr [])) ∧
  (alistLookup fields "sku" = none → alistLookup out "sku" = some .jnull) ∧
  (∀ sv, alistLookup fields "source" = some sv →
    ∃ metaFs, alistLookup out "meta" = some (.jobj metaFs) ∧
      alistLookup metaFs "source" =
        some (if sv.truthy = true then sv else .jstr "Qualiwo"))

/-- A history in which a mapped product_search call ran and returned items,
followed by a turn with no tool activity. -/
def historyWithSearch : List TMsg :=
  [.human "show me shoes",
   .assistant "" [⟨"call_1", "product_search_tool"⟩],
   .toolResult "call_1" "search payload",
   .assistant "first final" []]

/-- The later turn: a user message answered without any tool call. -/
def laterTurn : List TMsg :=
  [.human "thanks", .assistant "second final" []]

/-- A parse oracle for the memory scenario: the product_search payload parses
to an object with an items list; the final answers are not JSON. -/
def parseMemory : String → Option JValue :=
  fun s =>
    if s = "search payload" then
      some (.jobj [("items", .jarr [.jstr "p1"]), ("totalFound", .jnum 1)])
    else none

/-! Helper lemmas. -/

theorem alistLookup_set_self {α : Type} (l : List (String × α)) (k : String) (v : α) :
    alistLookup (alistSet l k v) k = some v := by
  induction l with
  | nil => simp [alistSet, alistLookup]
  | cons kv rest ih =>
      by_cases h : kv.1 = k
      · simp [alistSet, alistLookup, h]
      · simp [alistSet, alistLookup, h, ih]

theorem alistLookup_set_ne {α : Type} (l : List (String × α)) (k k' : String) (v : α)
    (h : k' ≠ k) : alistLookup (alistSet l k v) k' = alistLookup l k' := by
  have hkk : ¬(k = k') := fun hh => h hh.symm
  induction l with
  | nil => simp only [alistSet, alistLookup, if_neg hkk]
  | cons kv rest ih =>
      obtain ⟨k0, v0⟩ := kv
      by_cases hk : k0 = k
      · simp only [alistSet, if_pos hk, alistLookup]
        have hne : ¬(k0 = k') := by rw [hk]; exact hkk
        rw [if_neg hne, if_neg hne]
      · simp only [alistSet, if_neg hk, alistLookup]
        by_cases hk2 : k0 = k'
        · rw [if_pos hk2, if_pos hk2]
        · rw [if_neg hk2, if_neg hk2, ih]

theorem getLast?_cons_eq {β : Type} :
    ∀ (v : β) (l : List β),
      (v :: l).getLast? =
        match l.getLast? with
        | some w => some w
        | none => some v
  | _, [] => rfl
  | v, y :: ys => by
      rw [List.getLast?_cons_cons, getLast?_cons_eq y ys]
      cases hys : ys.getLast? <;> simp

theorem foldl_assignOrKeep {α β : Type} (f : α → Option β)
    (step : Option β → α → Option β)
    (hstep : ∀ acc x, step acc x = orElseK (f x) acc) :
    ∀ (l : List α) (init : Option β),
      l.foldl step init = orElseK ((l.filterMap f).getLast?) init
  | [], init => rfl
  | x :: xs, init => by
      rw [List.foldl_cons, foldl_assignOrKeep f step hstep xs, hstep,
        List.filterMap_cons]
      cases hf : f x with
      | none => rfl
      | some v =>
          rw [getLast?_cons_eq]
          cases hlast : (xs.filterMap f).getLast? <;> rfl

theorem getLast?_map_eq {α β : Type} (g : α → β) :
    ∀ (l : List α), (l.map g).getLast? = l.getLast?.map g
  | [] => rfl
  | x :: xs => by
      rw [List.map_cons, getLast?_cons_eq, getLast?_cons_eq x xs,
        getLast?_map_eq g xs]
      cases hxs : xs.getLast? <;> rfl

theorem mem_of_getLast?_eq {β : Type} :
    ∀ (l : List β) (v : β), l.getLast? = some v → v ∈ l
  | [], v, h => by exact Option.noConfusion h
  | x :: xs, v, h => by
      rw [getLast?_cons_eq] at h
      cases hxs : xs.getLast? with
      | some w =>
          rw [hxs] at h
          have h2 : some w = some v := h
          cases h2
          exact List.mem_cons_of_mem x (mem_of_getLast?_eq xs v hxs)
      | none =>
          rw [hxs] at h
          have h2 : some x = some v := h
          cases h2
          exact List.mem_cons_self x xs

theorem scanToolCall_snd (acc : List (String × String) × JValue) (tc : ToolCall) :
    (scanToolCall acc tc).2 =
      match toolUiAction tc.name with
      | some a => JValue.jstr a
      | none => acc.2 := by
  unfold scanToolCall toolUiAction
  split_ifs <;> rfl

theorem foldl_scanToolCall_snd :
    ∀ (tcs : List ToolCall) (acc : List (String × String) × JValue),
      (tcs.foldl scanToolCall acc).2 =
        (tcs.filterMap (fun tc => toolUiAction tc.name)).foldl
          (fun _ a => JValue.jstr a) acc.2
  | [], acc => rfl
  | tc :: rest, acc => by
      rw [List.foldl_cons, foldl_scanToolCall_snd rest, List.filterMap_cons]
      cases h : toolUiAction tc.name with
      | none =>
          have h2 : (scanToolCall acc tc).2 = acc.2 := by rw [scanToolCall_snd, h]
          rw [h2]
      | some a =>
          have h2 : (scanToolCall acc tc).2 = JValue.jstr a := by
            rw [scanToolCall_snd, h]
          rw [h2]
          rfl

theorem scanMsg1_noCalls (acc : List (String × String) × JValue) (m : TMsg)
    (h : noToolCallMsg m = true) : scanMsg1 acc m = acc := by
  cases m with
  | assistant c tcs =>
      simp only [noToolCallMsg, List.isEmpty_iff] at h
      subst h
      rfl
  | system c => rfl
  | human c => rfl
  | toolResult cid content => rfl

theorem foldl_scanMsg1_snd :
    ∀ (msgs : List TMsg) (acc : List (String × String) × JValue),
      (msgs.foldl scanMsg1 acc).2 =
        (mappedActions msgs).foldl (fun _ a => JValue.jstr a) acc.2
  | [], acc => rfl
  | m :: rest, acc => by
      rw [List.foldl_cons, foldl_scanMsg1_snd rest]
      have hm : mappedActions (m :: rest) =
          (match m with
           | .assistant _ tcs => tcs.filterMap (fun tc => toolUiAction tc.name)
           | _ => []) ++ mappedActions rest := by
        simp [mappedActions]
      rw [hm, List.foldl_append]
      cases m with
      | assistant c tcs =>
          simp only [scanMsg1]
          rw [foldl_scanToolCall_snd]
      | system c => rfl
      | human c => rfl
      | toolResult cid content => rfl

theorem foldl_keepLast {α β : Type} (g : α → β) :
    ∀ (l : List α) (init : β),
      l.foldl (fun _ a => g a) init =
        match l.getLast? with
        | some a => g a
        | none => init
  | [], init => rfl
  | x :: xs, init => by
      rw [List.foldl_cons, foldl_keepLast g xs, getLast?_cons_eq]
      cases hxs : xs.getLast? <;> rfl

theorem pass2a_uiAction (msgs : List TMsg) (ua0 : JValue) :
    (pass2a msgs ua0).2 =
      match (mappedActions msgs).getLast? with
      | some a => JValue.jstr a
      | none => ua0 := by
  show (msgs.foldl scanMsg1 ([], ua0)).2 = _
  rw [foldl_scanMsg1_snd, foldl_keepLast]
  cases h : (mappedActions msgs).getLast? <;> rfl

theorem toolUiAction_cases (s a : String) (h : toolUiAction s = some a) :
    a = "RENDER_PRODUCTS" ∨ a = "RENDER_CART" ∨ a = "REQUEST_INFO" ∨
      a = "RENDER_PAYMENT" := by
  unfold toolUiAction at h
  split_ifs at h <;> simp_all

theorem mappedActions_cases (msgs : List TMsg) (a : String)
    (h : a ∈ mappedActions msgs) :
    a = "RENDER_PRODUCTS" ∨ a = "RENDER_CART" ∨ a = "REQUEST_INFO" ∨
      a = "RENDER_PAYMENT" := by
  unfold mappedActions at h
  rw [List.mem_flatten] at h
  obtain ⟨l, hl, hal⟩ := h
  rw [List.mem_map] at hl
  obtain ⟨m, hm, hml⟩ := hl
  cases m with
  | assistant c tcs =>
      subst hml
      rw [List.mem_filterMap] at hal
      obtain ⟨tc, _, htc⟩ := hal
      exact toolUiAction_cases tc.name a htc
  | system c => subst hml; cases hal
  | human c => subst hml; cases hal
  | toolResult cid content => subst hml; cases hal

theorem pass1_nonobj (parse : String → Option JValue) (raw : String)
    (h : ∀ fields, parse (stripFences raw) ≠ some (.jobj fields)) :
    pass1 parse raw = (.jstr raw, .jstr "NONE", none) := by
  unfold pass1
  cases hp : parse (stripFences raw) with
  | none => rfl
  | some v =>
      cases v with
      | jobj fields => exact absurd hp (h fields)
      | jnull => rfl
      | jbool b => rfl
      | jnum n => rfl
      | jstr s => rfl
      | jarr xs => rfl

theorem foldl_scanMsg1_noCalls :
    ∀ (msgs : List TMsg) (acc : List (String × String) × JValue),
      msgs.all noToolCallMsg = true → msgs.foldl scanMsg1 acc = acc
  | [], acc, _ => rfl
  | m :: rest, acc, h => by
      rw [List.all_cons, Bool.and_eq_true] at h
      rw [List.foldl_cons, scanMsg1_noCalls acc m h.1,
        foldl_scanMsg1_noCalls rest acc h.2]

theorem mappedActions_append (l1 l2 : List TMsg) :
    mappedActions (l1 ++ l2) = mappedActions l1 ++ mappedActions l2 := by
  simp [mappedActions]

theorem mappedActions_noCalls :
    ∀ (msgs : List TMsg), msgs.all noToolCallMsg = true → mappedActions msgs = []
  | [], _ => rfl
  | m :: rest, h => by
      rw [List.all_cons, Bool.and_eq_true] at h
      have hrest := mappedActions_noCalls rest h.2
      cases m with
      | assistant c tcs =>
          have h1 := h.1
          simp only [noToolCallMsg, List.isEmpty_iff] at h1
          subst h1
          exact hrest
      | system c => exact hrest
      | human c => exact hrest
      | toolResult cid content => exact hrest

theorem noToolActivity_noCall (m : TMsg) (h : noToolActivityMsg m = true) :
    noToolCallMsg m = true := by
  cases m <;> simp_all [noToolActivityMsg, noToolCallMsg]

theorem orElseK_match (o : Option JValue) (acc : Option JValue) :
    (match o with
     | some items => some items
     | none => acc) =
      orElseK
        (match o with
         | some items => some items
         | none => none) acc := by
  cases o <;> rfl

theorem scanMsg2_assignOrKeep (parse : String → Option JValue)
    (map : List (String × String)) (acc : Option JValue) (m : TMsg) :
    scanMsg2 parse map acc m = orElseK (msgDataAssign parse map m) acc := by
  cases m with
  | system c => rfl
  | human c => rfl
  | assistant c tcs => rfl
  | toolResult cid content =>
      show scanMsg2 parse map acc (.toolResult cid content) =
        orElseK (scanMsg2 parse map none (.toolResult cid content)) acc
      simp only [scanMsg2]
      split_ifs with h1 h2 h3
      · generalize (parse content).getD (.jstr content) = data
        cases data with
        | jobj fields => exact orElseK_match (alistLookup fields "items") acc
        | jnull => rfl
        | jbool b => rfl
        | jnum n => rfl
        | jstr s => rfl
        | jarr xs => rfl
      · rfl
      · rfl
      · rfl

theorem scanMsg2_noActivity (parse : String → Option JValue)
    (map : List (String × String)) (acc : Option JValue) (m : TMsg)
    (h : noToolActivityMsg m = true) : scanMsg2 parse map acc m = acc := by
  cases m with
  | system c => rfl
  | human c => rfl
  | assistant c tcs => rfl
  | toolResult cid content => simp [noToolActivityMsg] at h

theorem scanMsg2_emptyMap (parse : String → Option JValue) (acc : Option JValue)
    (m : TMsg) : scanMsg2 parse [] acc m = acc := by
  cases m with
  | system c => rfl
  | human c => rfl
  | assistant c tcs => rfl
  | toolResult cid content => rfl

theorem foldl_scanMsg2_emptyMap (parse : String → Option JValue) :
    ∀ (msgs : List TMsg) (d : Option JValue),
      msgs.foldl (scanMsg2 parse []) d = d
  | [], d => rfl
  | m :: rest, d => by
      rw [List.foldl_cons, scanMsg2_emptyMap, foldl_scanMsg2_emptyMap parse rest]

theorem foldl_scanMsg2_lastAssign (parse : String → Option JValue)
    (map : List (String × String)) (msgs : List TMsg) (d : Option JValue) :
    msgs.foldl (scanMsg2 parse map) d = orElseK (lastAssign parse map msgs) d := by
  exact foldl_assignOrKeep (msgDataAssign parse map) (scanMsg2 parse map)
    (fun acc m => scanMsg2_assignOrKeep parse map acc m) msgs d

theorem foldl_scanMsg2_noActivity (parse : String → Option JValue)
    (map : List (String × String)) :
    ∀ (msgs : List TMsg) (d : Option JValue),
      msgs.all noToolActivityMsg = true →
      msgs.foldl (scanMsg2 parse map) d = d
  | [], d, _ => rfl
  | m :: rest, d, h => by
      rw [List.all_cons, Bool.and_eq_true] at h
      rw [List.foldl_cons, scanMsg2_noActivity parse map d m h.1,
        foldl_scanMsg2_noActivity parse map rest d h.2]

/-! Claim theorems. -/

/-- C1: pass 2 (tool-call ground truth) overrides pass 1 for ui_action: for
every parse oracle and completed transcript, the resolved ui_action is the
mapped ui_action of the last tool-invocation request whose tool name is in
the fixed table, whatever the final assistant JSON self-reported. -/
theorem C1_tool_call_precedence (parse : String → Option JValue) (msgs : List TMsg)
    (a : String) (h : (mappedActions msgs).getLast? = some a) :
    (chat_resolve parse msgs).uiAction = .jstr a := by
  show (pass2a msgs (pass1 parse (rawOf msgs)).2.1).2 = _
  rw [pass2a_uiAction, h]

/-- Witness for C1: a transcript with a successful product_search call and a
final JSON declaring ui_action NONE resolves to RENDER_PRODUCTS. -/
theorem C1_tool_call_precedence_witness :
    (pass1 parseDemo (rawOf demoTranscript)).2.1 = .jstr "NONE" ∧
    (mappedActions demoTranscript).getLast? = some "RENDER_PRODUCTS" ∧
    (chat_resolve parseDemo demoTranscript).uiAction = .jstr "RENDER_PRODUCTS" :=
  ⟨rfl, rfl, C1_tool_call_precedence parseDemo demoTranscript "RENDER_PRODUCTS" rfl⟩

/-- C2 (counterexample): the resolved ui_action is not always inside the fixed
enum — when the final assistant JSON self-reports an arbitrary string other
than NONE and no tool call overrides it, the code copies it verbatim; the
same input also yields an empty message. -/
theorem C2_enum_counterexample :
    (chat_resolve parseOffEnum offEnumTranscript).uiAction ∉ uiActionEnum ∧
    (chat_resolve parseOffEnum offEnumTranscript).message = .jstr "" := by
  constructor
  · have h : (chat_resolve parseOffEnum offEnumTranscript).uiAction
        = .jstr "RENDER_SPACESHIP" := rfl
    rw [h]
    intro hmem
    simp only [uiActionEnum, List.mem_cons, List.not_mem_nil, or_false] at hmem
    rcases hmem with h1 | h1 | h1 | h1 | h1 <;>
      (injection h1 with hs; exact absurd hs (by decide))
  · rfl

/-- C2 (amended): the resolved message is pass 1's message field (or the raw
final text), with no non-emptiness guarantee, and the resolved ui_action is
drawn from the fixed enum provided the self-reported ui_action of pass 1 is
(pass 2 overrides always are; the code copies an off-enum self-report
verbatim when no tool call overrides it). -/
theorem C2_amended_directive (parse : String → Option JValue) (msgs : List TMsg) :
    (chat_resolve parse msgs).message = (pass1 parse (rawOf msgs)).1 ∧
    ((pass1 parse (rawOf msgs)).2.1 ∈ uiActionEnum →
      (chat_resolve parse msgs).uiAction ∈ uiActionEnum) := by
  constructor
  · rfl
  · intro h
    have hu : (chat_resolve parse msgs).uiAction =
        match (mappedActions msgs).getLast? with
        | some a => JValue.jstr a
        | none => (pass1 parse (rawOf msgs)).2.1 := pass2a_uiAction msgs _
    rw [hu]
    cases hl : (mappedActions msgs).getLast? with
    | none => exact h
    | some a =>
        have hmem := mappedActions_cases msgs a (mem_of_getLast?_eq _ a hl)
        rcases hmem with h1 | h1 | h1 | h1 <;> subst h1 <;> simp [uiActionEnum]

/-- Witness for C2 (amended): an in-enum self-report with no tool calls stays
in the enum. -/
theorem C2_amended_directive_witness :
    (chat_resolve parseEnumOk enumOkTranscript).message = .jstr "Your cart" ∧
    (chat_resolve parseEnumOk enumOkTranscript).uiAction ∈ uiActionEnum := by
  refine ⟨?_, ?_⟩
  · have h := (C2_amended_directive parseEnumOk enumOkTranscript).1
    rw [h]
    rfl
  · refine (C2_amended_directive parseEnumOk enumOkTranscript).2 ?_
    have h2 : (pass1 parseEnumOk (rawOf enumOkTranscript)).2.1 = .jstr "RENDER_CART" :=
      rfl
    rw [h2]
    simp [uiActionEnum]

/-- C8: pass-1 parse fallback: when the final assistant text does not parse as
a JSON object, resolution does not fail — the directive message is the raw
text verbatim, and if the transcript carries no tool calls at all the
ui_action is NONE and the data is null. -/
theorem C8_parse_fallback (parse : String → Option JValue) (msgs : List TMsg)
    (text : String) (tcs : List ToolCall)
    (hlast : msgs.getLast? = some (.assistant text tcs))
    (hparse : ∀ fields, parse (stripFences text) ≠ some (.jobj fields)) :
    (chat_resolve parse msgs).message = .jstr text ∧
    (msgs.all noToolCallMsg = true →
      (chat_resolve parse msgs).uiAction = .jstr "NONE" ∧
      (chat_resolve parse msgs).data = none) := by
  have hraw : rawOf msgs = text := by
    unfold rawOf
    rw [hlast]
    rfl
  have hp1 : pass1 parse (rawOf msgs) = (.jstr text, .jstr "NONE", none) := by
    rw [hraw]
    exact pass1_nonobj parse text hparse
  refine ⟨?_, ?_⟩
  · show (pass1 parse (rawOf msgs)).1 = .jstr text
    rw [hp1]
  · intro hall
    have hpass2 : pass2a msgs (pass1 parse (rawOf msgs)).2.1
        = ([], (pass1 parse (rawOf msgs)).2.1) :=
      foldl_scanMsg1_noCalls msgs _ hall
    constructor
    · show (pass2a msgs (pass1 parse (rawOf msgs)).2.1).2 = .jstr "NONE"
      rw [hpass2, hp1]
    · show msgs.foldl
          (scanMsg2 parse (pass2a msgs (pass1 parse (rawOf msgs)).2.1).1)
          (pass1 parse (rawOf msgs)).2.2 = none
      simp only [hpass2]
      simp only [hp1]
      exact foldl_scanMsg2_emptyMap parse msgs none

/-- Witness for C8: a malformed final answer with no tool calls yields the raw
text, ui_action NONE and null data. -/
theorem C8_parse_fallback_witness :
    (chat_resolve parseNever malformedTranscript).message = .jstr "not a json payload" ∧
    (chat_resolve parseNever malformedTranscript).uiAction = .jstr "NONE" ∧
    (chat_resolve parseNever malformedTranscript).data = none := by
  have h := C8_parse_fallback parseNever malformedTranscript "not a json payload" []
    rfl (fun fields hh => Option.noConfusion hh)
  exact ⟨h.1, (h.2 rfl).1, (h.2 rfl).2⟩

/-- C10: resolution scans the entire retained session transcript — when the
later turn triggers no tool activity, the resolved ui_action is the mapped
ui_action of the last mapped tool call of the history (never NONE), and the
data comes from the last relevant tool result of the history. -/
theorem C10_session_memory (parse : String → Option JValue) (h cur : List TMsg)
    (a : String)
    (hcur : cur.all noToolActivityMsg = true)
    (hh : (mappedActions h).getLast? = some a) :
    (chat_resolve parse (sessionTranscript h cur)).uiAction = .jstr a ∧
    JValue.jstr a ≠ .jstr "NONE" ∧
    (∀ v, lastAssign parse (resolveCallMap parse (sessionTranscript h cur)) h = some v →
      (chat_resolve parse (sessionTranscript h cur)).data = some v) := by
  have hcall : cur.all noToolCallMsg = true := by
    rw [List.all_eq_true] at hcur ⊢
    exact fun m hm => noToolActivity_noCall m (hcur m hm)
  have hmap : (mappedActions (sessionTranscript h cur)).getLast? = some a := by
    show (mappedActions (h ++ cur)).getLast? = some a
    rw [mappedActions_append, mappedActions_noCalls cur hcall, List.append_nil, hh]
  refine ⟨?_, ?_, ?_⟩
  · show (pass2a (sessionTranscript h cur)
      (pass1 parse (rawOf (sessionTranscript h cur))).2.1).2 = _
    rw [pass2a_uiAction, hmap]
  · have hmem := mappedActions_cases h a (mem_of_getLast?_eq _ a hh)
    rcases hmem with h1 | h1 | h1 | h1 <;> subst h1 <;>
      (intro hne; injection hne with hs; exact absurd hs (by decide))
  · intro v hv
    show (sessionTranscript h cur).foldl
        (scanMsg2 parse (resolveCallMap parse (sessionTranscript h cur)))
        (pass1 parse (rawOf (sessionTranscript h cur))).2.2 = some v
    show (h ++ cur).foldl
        (scanMsg2 parse (resolveCallMap parse (sessionTranscript h cur)))
        (pass1 parse (rawOf (sessionTranscript h cur))).2.2 = some v
    rw [List.foldl_append,
      foldl_scanMsg2_noActivity _ _ cur _ hcur,
      foldl_scanMsg2_lastAssign, hv]
    rfl

/-- Witness for C10: a history containing a product_search call with its items
result, followed by a turn with no tool activity, still resolves to
RENDER_PRODUCTS with the items of the historical search. -/
theorem C10_session_memory_witness :
    (chat_resolve parseMemory (sessionTranscript historyWithSearch laterTurn)).uiAction
        = .jstr "RENDER_PRODUCTS" ∧
    (chat_resolve parseMemory (sessionTranscript historyWithSearch laterTurn)).data
        = some (.jarr [.jstr "p1"]) := by
  have h := C10_session_memory parseMemory historyWithSearch laterTurn
    "RENDER_PRODUCTS" rfl rfl
  exact ⟨h.1, h.2.2 (.jarr [.jstr "p1"]) rfl⟩

/-! Store lemmas for the payment and cart claims. -/

theorem get_cart_clear (st : Store) (user_id : String) :
    CartService.get_cart (CartService.clear_cart st user_id) user_id = [] := by
  unfold CartService.clear_cart CartService.get_cart
  by_cases h : (alistLookup st.carts user_id).isSome
  · rw [if_pos h]
    show (alistLookup (alistSet st.carts user_id []) user_id).getD [] = []
    rw [alistLookup_set_self]
    rfl
  · rw [if_neg h]
    rw [Option.not_isSome_iff_eq_none] at h
    rw [h]
    rfl

theorem clear_cart_entity (st : Store) (user_id : String)
    (h : (alistLookup st.carts user_id).isSome) :
    alistLookup (CartService.clear_cart st user_id).carts user_id = some [] := by
  unfold CartService.clear_cart
  rw [if_pos h]
  show alistLookup (alistSet st.carts user_id []) user_id = some []
  exact alistLookup_set_self st.carts user_id []

/-- C3: empty-cart payment atomicity: with an empty cart, process_payment
returns the explicit failure result with no payment id, the carts component
of the store is untouched, and the only state change is the upsert of the
first_name and phone profile fields. -/
theorem C3_empty_cart_payment (st : Store) (user_id first_name phone : String)
    (now : Nat) (hempty : CartService.get_cart st user_id = []) :
    process_payment_tool st user_id first_name phone now =
      (.jobj [("success", .jbool false), ("message", .jstr "Le panier est vide.")],
       UserService.save_user_info
         (UserService.save_user_info st user_id "first_name" first_name)
         user_id "phone" phone) ∧
    jGet (process_payment_tool st user_id first_name phone now).1 "payment_id" = none ∧
    (process_payment_tool st user_id first_name phone now).2.carts = st.carts := by
  have hc2 : CartService.get_cart
      (UserService.save_user_info
        (UserService.save_user_info st user_id "first_name" first_name)
        user_id "phone" phone) user_id = [] := hempty
  have hred : process_payment_tool st user_id first_name phone now =
      (.jobj [("success", .jbool false), ("message", .jstr "Le panier est vide.")],
       UserService.save_user_info
         (UserService.save_user_info st user_id "first_name" first_name)
         user_id "phone" phone) := by
    unfold process_payment_tool
    simp only [hc2]
    rfl
  refine ⟨hred, ?_, ?_⟩
  · rw [hred]
    rfl
  · rw [hred]
    rfl

/-- Witness for C3: a fresh session pays on an empty cart and gets the
failure result with only the profile fields written. -/
theorem C3_empty_cart_payment_witness :
    CartService.get_cart Store.empty "s1" = [] ∧
    process_payment_tool Store.empty "s1" "Jean" "0612345678" 7 =
      (.jobj [("success", .jbool false), ("message", .jstr "Le panier est vide.")],
       UserService.save_user_info
         (UserService.save_user_info Store.empty "s1" "first_name" "Jean")
         "s1" "phone" "0612345678") ∧
    jGet (process_payment_tool Store.empty "s1" "Jean" "0612345678" 7).1 "payment_id"
      = none :=
  ⟨rfl, (C3_empty_cart_payment Store.empty "s1" "Jean" "0612345678" 7 rfl).1,
   (C3_empty_cart_payment Store.empty "s1" "Jean" "0612345678" 7 rfl).2.1⟩

/-- C4: successful payment: with a non-empty cart, process_payment returns
success with a freshly minted payment id and status completed, and the cart
entity is emptied (not removed) so a subsequent get_cart / show_cart returns
an empty item list. -/
theorem C4_successful_payment (st : Store) (user_id first_name phone : String)
    (now : Nat) (hne : CartService.get_cart st user_id ≠ []) :
    jGet (process_payment_tool st user_id first_name phone now).1 "success"
      = some (.jbool true) ∧
    jGet (process_payment_tool st user_id first_name phone now).1 "payment_id"
      = some (.jstr ("PAY_" ++ pyUpper first_name ++ "_" ++ toString now)) ∧
    jGet (process_payment_tool st user_id first_name phone now).1 "status"
      = some (.jstr "completed") ∧
    CartService.get_cart (process_payment_tool st user_id first_name phone now).2 user_id
      = [] ∧
    alistLookup (process_payment_tool st user_id first_name phone now).2.carts user_id
      = some [] ∧
    jGet (show_cart_tool (process_payment_tool st user_id first_name phone now).2
      user_id "view") "items" = some (.jarr []) := by
  have hb : (CartService.get_cart
      (UserService.save_user_info
        (UserService.save_user_info st user_id "first_name" first_name)
        user_id "phone" phone) user_id).isEmpty = false := by
    rcases hcc : CartService.get_cart
        (UserService.save_user_info
          (UserService.save_user_info st user_id "first_name" first_name)
          user_id "phone" phone) user_id with _ | ⟨a, l⟩
    · exact absurd hcc hne
    · rfl
  have hred : process_payment_tool st user_id first_name phone now =
      (.jobj [("success", .jbool true),
              ("message", .jstr ("Paiement confirmé pour " ++ first_name)),
              ("payment_id", .jstr ("PAY_" ++ pyUpper first_name ++ "_" ++ toString now)),
              ("status", .jstr "completed")],
       CartService.clear_cart
         (UserService.save_user_info
           (UserService.save_user_info st user_id "first_name" first_name)
           user_id "phone" phone) user_id) := by
    unfold process_payment_tool
    simp only [hb, Bool.false_eq_true, if_false]
  have hsome : (alistLookup st.carts user_id).isSome := by
    rcases hl : alistLookup st.carts user_id with _ | l
    · exfalso
      apply hne
      show (alistLookup st.carts user_id).getD [] = []
      rw [hl]
      rfl
    · rfl
  refine ⟨?_, ?_, ?_, ?_, ?_, ?_⟩
  · rw [hred]
    rfl
  · rw [hred]
    rfl
  · rw [hred]
    rfl
  · rw [hred]
    exact get_cart_clear _ user_id
  · rw [hred]
    exact clear_cart_entity _ user_id hsome
  · rw [hred]
    have hitems : jGet (show_cart_tool
        (CartService.clear_cart
          (UserService.save_user_info
            (UserService.save_user_info st user_id "first_name" first_name)
            user_id "phone" phone) user_id) user_id "view") "items"
        = some (.jarr ((CartService.get_cart
            (CartService.clear_cart
              (UserService.save_user_info
                (UserService.save_user_info st user_id "first_name" first_name)
                user_id "phone" phone) user_id) user_id).map CartItem.toJson)) := rfl
    rw [hitems, get_cart_clear]
    rfl

/-- Witness for C4: session s1 with one item in the cart pays as Jean and
gets a completed payment; the cart is empty afterwards. -/
theorem C4_successful_payment_witness :
    CartService.get_cart
        ⟨[("s1", [⟨"p1", "Produit", 5, none, 1, 0⟩])], []⟩ "s1" ≠ [] ∧
    jGet (process_payment_tool
        ⟨[("s1", [⟨"p1", "Produit", 5, none, 1, 0⟩])], []⟩ "s1" "Jean" "0612345678" 42).1
        "payment_id" = some (.jstr "PAY_JEAN_42") ∧
    jGet (process_payment_tool
        ⟨[("s1", [⟨"p1", "Produit", 5, none, 1, 0⟩])], []⟩ "s1" "Jean" "0612345678" 42).1
        "status" = some (.jstr "completed") ∧
    CartService.get_cart
      (process_payment_tool
        ⟨[("s1", [⟨"p1", "Produit", 5, none, 1, 0⟩])], []⟩ "s1" "Jean" "0612345678" 42).2
      "s1" = [] := by
  have hne : CartService.get_cart
      ⟨[("s1", [⟨"p1", "Produit", 5, none, 1, 0⟩])], []⟩ "s1" ≠ [] := by
    intro h
    exact List.noConfusion h
  have h := C4_successful_payment
    ⟨[("s1", [⟨"p1", "Produit", 5, none, 1, 0⟩])], []⟩ "s1" "Jean" "0612345678" 42 hne
  exact ⟨hne, h.2.1, h.2.2.1, h.2.2.2.1⟩

theorem mergeItem_ids (item : CartItem) (q : Int) :
    ∀ (items : List CartItem),
      (CartService.mergeItem items item q).map (fun i => i.id) =
        if item.id ∈ items.map (fun i => i.id) then items.map (fun i => i.id)
        else items.map (fun i => i.id) ++ [item.id]
  | [] => by simp [CartService.mergeItem]
  | i :: rest => by
      by_cases h : i.id = item.id
      · simp [CartService.mergeItem, h]
      · have ih := mergeItem_ids item q rest
        simp only [CartService.mergeItem, if_neg h, List.map_cons, ih]
        have hne : ¬(item.id = i.id) := fun hh => h hh.symm
        by_cases h2 : item.id ∈ rest.map (fun i => i.id)
        · rw [if_pos h2]
          rw [if_pos (by rw [List.mem_cons]; exact Or.inr h2)]
        · rw [if_neg h2]
          rw [if_neg (by rw [List.mem_cons]; rintro (hh | hh); exact hne hh; exact h2 hh)]
          rfl

theorem mergeItem_nodup (item : CartItem) (q : Int) (items : List CartItem)
    (h : (items.map (fun i => i.id)).Nodup) :
    ((CartService.mergeItem items item q).map (fun i => i.id)).Nodup := by
  rw [mergeItem_ids]
  split_ifs with hmem
  · exact h
  · rw [List.nodup_append]
    refine ⟨h, List.nodup_singleton _, ?_⟩
    intro x hx hx'
    rw [List.mem_singleton] at hx'
    subst hx'
    exact hmem hx

theorem add_to_cart_nodup (st : Store) (user_id : String) (product : ProductData)
    (q : Int) (now : Nat) (h : cartIdsNodup st) :
    cartIdsNodup (CartService.add_to_cart st user_id product q now) := by
  obtain ⟨itm, hcarts⟩ : ∃ itm,
      (CartService.add_to_cart st user_id product q now).carts =
        alistSet st.carts user_id
          (CartService.mergeItem (CartService.get_cart st user_id) itm q) :=
    ⟨_, rfl⟩
  intro u
  show (((alistLookup (CartService.add_to_cart st user_id product q now).carts u).getD
    []).map (fun i => i.id)).Nodup
  rw [hcarts]
  by_cases hu : u = user_id
  · subst hu
    rw [alistLookup_set_self]
    exact mergeItem_nodup itm q _ (h u)
  · rw [alistLookup_set_ne st.carts user_id u _ hu]
    exact h u

/-- C5: cart merge invariant: after any sequence of add_to_cart calls against
the fresh volatile store, every session cart has at most one item per product
id; in particular two consecutive adds of the same product with quantity 1
yield exactly one item with quantity 2 (and the added_at of the first add). -/
theorem C5_cart_merge_invariant :
    (∀ ops : List AddOp, cartIdsNodup (runAdds ops)) ∧
    CartService.get_cart
        (runAdds [⟨"s1", demoProduct, 1, 0⟩, ⟨"s1", demoProduct, 1, 1⟩]) "s1" =
      [{ id := "p1", name := "Produit", price := 5, image := none,
         quantity := 2, added_at := 0 }] := by
  constructor
  · have hgen : ∀ (ops : List AddOp) (st : Store), cartIdsNodup st →
        cartIdsNodup (ops.foldl (fun st op =>
          CartService.add_to_cart st op.user_id op.product op.quantity op.now) st) := by
      intro ops
      induction ops with
      | nil => intro st h; exact h
      | cons op rest ih =>
          intro st h
          exact ih _ (add_to_cart_nodup st op.user_id op.product op.quantity op.now h)
    intro ops
    refine hgen ops Store.empty ?_
    intro u
    show (((alistLookup ([] : List (String × List CartItem)) u).getD []).map
      (fun i => i.id)).Nodup
    exact List.nodup_nil
  · rfl

/-- C6: spec-modelled structural validation of the add-to-cart tool: when the
price argument is not a number or the product_id argument is not a string,
the invocation returns a failure result, raises nothing (the embedding is a
total function), and leaves the store unchanged. -/
theorem C6_invalid_args_rejected (st : Store) (user_id : String)
    (args : List (String × JValue)) (now : Nat)
    (h : isNumArg (alistLookup args "price") = false ∨
         isStrArg (alistLookup args "product_id") = false) :
    (add_to_cart_tool_invoke st user_id args now).1 =
      .jobj [("success", .jbool false), ("message", .jstr "Invalid tool arguments")] ∧
    (add_to_cart_tool_invoke st user_id args now).2 = st := by
  unfold add_to_cart_tool_invoke
  rcases hpid : alistLookup args "product_id" with _ | pidv
  · exact ⟨rfl, rfl⟩
  · cases pidv with
    | jstr pid =>
        rcases hnm : alistLookup args "name" with _ | nmv
        · exact ⟨rfl, rfl⟩
        · cases nmv with
          | jstr nm =>
              rcases hpr : alistLookup args "price" with _ | prv
              · exact ⟨rfl, rfl⟩
              · cases prv with
                | jnum n =>
                    exfalso
                    rcases h with h | h
                    · rw [hpr] at h
                      simp [isNumArg] at h
                    · rw [hpid] at h
                      simp [isStrArg] at h
                | jnull => exact ⟨rfl, rfl⟩
                | jbool b => exact ⟨rfl, rfl⟩
                | jstr s => exact ⟨rfl, rfl⟩
                | jarr xs => exact ⟨rfl, rfl⟩
                | jobj fs => exact ⟨rfl, rfl⟩
          | jnull => exact ⟨rfl, rfl⟩
          | jbool b => exact ⟨rfl, rfl⟩
          | jnum n => exact ⟨rfl, rfl⟩
          | jarr xs => exact ⟨rfl, rfl⟩
          | jobj fs => exact ⟨rfl, rfl⟩
    | jnull => exact ⟨rfl, rfl⟩
    | jbool b => exact ⟨rfl, rfl⟩
    | jnum n => exact ⟨rfl, rfl⟩
    | jarr xs => exact ⟨rfl, rfl⟩
    | jobj fs => exact ⟨rfl, rfl⟩

/-- Witness for C6: a string price is rejected and the store stays unchanged. -/
theorem C6_invalid_args_rejected_witness :
    isNumArg (alistLookup invalidPriceArgs "price") = false ∧
    (add_to_cart_tool_invoke Store.empty "s1" invalidPriceArgs 3).1 =
      .jobj [("success", .jbool false), ("message", .jstr "Invalid tool arguments")] ∧
    (add_to_cart_tool_invoke Store.empty "s1" invalidPriceArgs 3).2 = Store.empty :=
  ⟨rfl, (C6_invalid_args_rejected Store.empty "s1" invalidPriceArgs 3 (Or.inl rfl)).1,
   (C6_invalid_args_rejected Store.empty "s1" invalidPriceArgs 3 (Or.inl rfl)).2⟩

/-- C7: the agent loop of the source imposes no iteration bound and has no
"loop did not converge" error path: for a model that emits a tool-invocation
request on every call, the graph keeps oscillating AGENT → TOOLS → AGENT and
never reaches END, whatever the number of agent steps granted; the claimed
hard maximum with a convergence error does not exist in the code. -/
theorem C7_loop_never_converges :
    ∀ (n : Nat) (msgs : List TMsg),
      loopRun modelAlwaysToolCalls execToolsStub msgs n = none
  | 0, _ => rfl
  | Nat.succ n, msgs => C7_loop_never_converges n
      (msgs ++ [TMsg.assistant "" [⟨"call_1", "product_search_tool"⟩]] ++
        execToolsStub [⟨"call_1", "product_search_tool"⟩])

/-! Reduction lemmas for the Except-encoded Python computations. -/

theorem exceptBind_ok {α β : Type} (a : α) (fn : α → Except String β) :
    (Except.ok a >>= fn) = fn a := rfl

theorem exceptBind_err {α β : Type} (e : String) (fn : α → Except String β) :
    ((Except.error e : Except String α) >>= fn) = Except.error e := rfl

theorem exceptMap_ok {α β : Type} (fn : α → β) (a : α) :
    (fn <$> Except.ok a : Except String β) = Except.ok (fn a) := rfl

theorem exceptMap_err {α β : Type} (fn : α → β) (e : String) :
    (fn <$> (Except.error e : Except String α)) = Except.error e := rfl

theorem exceptPure {α : Type} (a : α) : (pure a : Except String α) = Except.ok a := rfl

/-! Lemmas about the normalization defaults. -/

theorem alistLookup_setDefault_ne (fs : List (String × JValue)) (k : String)
    (v : JValue) (k' : String) (h : k' ≠ k) :
    alistLookup (setDefault fs k v) k' = alistLookup fs k' := by
  unfold setDefault
  split_ifs with hs
  · rfl
  · exact alistLookup_set_ne fs k k' v h

theorem alistLookup_setDefault_isSome (fs : List (String × JValue)) (k : String)
    (v : JValue) : (alistLookup (setDefault fs k v) k).isSome := by
  unfold setDefault
  split_ifs with hs
  · exact hs
  · rw [alistLookup_set_self]
    rfl

theorem alistLookup_setDefault_none (fs : List (String × JValue)) (k : String)
    (v : JValue) (h : alistLookup fs k = none) :
    alistLookup (setDefault fs k v) k = some v := by
  unfold setDefault
  rw [h]
  simp only [Option.isSome_none, Bool.false_eq_true, if_false]
  exact alistLookup_set_self fs k v

theorem applyDefaults_eq (fs : List (String × JValue)) :
    applyDefaults fs =
      setDefault (setDefault (setDefault (setDefault
        (setDefault fs "brand" .jnull) "short_description" .jnull)
        "tags" (.jarr [])) "keywords" (.jarr [])) "sku" .jnull := rfl

theorem applyDefaults_type (fs : List (String × JValue)) :
    alistLookup (applyDefaults fs) "type" = alistLookup fs "type" := by
  rw [applyDefaults_eq,
    alistLookup_setDefault_ne _ _ _ _ (by decide),
    alistLookup_setDefault_ne _ _ _ _ (by decide),
    alistLookup_setDefault_ne _ _ _ _ (by decide),
    alistLookup_setDefault_ne _ _ _ _ (by decide),
    alistLookup_setDefault_ne _ _ _ _ (by decide)]

theorem applyDefaults_meta (fs : List (String × JValue)) :
    alistLookup (applyDefaults fs) "meta" = alistLookup fs "meta" := by
  rw [applyDefaults_eq,
    alistLookup_setDefault_ne _ _ _ _ (by decide),
    alistLookup_setDefault_ne _ _ _ _ (by decide),
    alistLookup_setDefault_ne _ _ _ _ (by decide),
    alistLookup_setDefault_ne _ _ _ _ (by decide),
    alistLookup_setDefault_ne _ _ _ _ (by decide)]

theorem applyDefaults_brand (fs : List (String × JValue)) :
    (alistLookup (applyDefaults fs) "brand").isSome ∧
    (alistLookup fs "brand" = none →
      alistLookup (applyDefaults fs) "brand" = some .jnull) := by
  rw [applyDefaults_eq,
    alistLookup_setDefault_ne _ _ _ _ (by decide),
    alistLookup_setDefault_ne _ _ _ _ (by decide),
    alistLookup_setDefault_ne _ _ _ _ (by decide),
    alistLookup_setDefault_ne _ _ _ _ (by decide)]
  exact ⟨alistLookup_setDefault_isSome fs "brand" .jnull,
    alistLookup_setDefault_none fs "brand" .jnull⟩

theorem applyDefaults_short_description (fs : List (String × JValue)) :
    (alistLookup (applyDefaults fs) "short_description").isSome ∧
    (alistLookup fs "short_description" = none →
      alistLookup (applyDefaults fs) "short_description" = some .jnull) := by
  rw [applyDefaults_eq,
    alistLookup_setDefault_ne _ _ _ _ (by decide),
    alistLookup_setDefault_ne _ _ _ _ (by decide),
    alistLookup_setDefault_ne _ _ _ _ (by decide)]
  constructor
  · exact alistLookup_setDefault_isSome _ "short_description" .jnull
  · intro h
    refine alistLookup_setDefault_none _ "short_description" .jnull ?_
    rw [alistLookup_setDefault_ne _ _ _ _ (by decide)]
    exact h

theorem applyDefaults_tags (fs : List (String × JValue)) :
    (alistLookup (applyDefaults fs) "tags").isSome ∧
    (alistLookup fs "tags" = none →
      alistLookup (applyDefaults fs) "tags" = some (.jarr [])) := by
  rw [applyDefaults_eq,
    alistLookup_setDefault_ne _ _ _ _ (by decide),
    alistLookup_setDefault_ne _ _ _ _ (by decide)]
  constructor
  · exact alistLookup_setDefault_isSome _ "tags" (.jarr [])
  · intro h
    refine alistLookup_setDefault_none _ "tags" (.jarr []) ?_
    rw [alistLookup_setDefault_ne _ _ _ _ (by decide),
      alistLookup_setDefault_ne _ _ _ _ (by decide)]
    exact h

theorem applyDefaults_keywords (fs : List (String × JValue)) :
    (alistLookup (applyDefaults fs) "keywords").isSome ∧
    (alistLookup fs "keywords" = none →
      alistLookup (applyDefaults fs) "keywords" = some (.jarr [])) := by
  rw [applyDefaults_eq,
    alistLookup_setDefault_ne _ _ _ _ (by decide)]
  constructor
  · exact alistLookup_setDefault_isSome _ "keywords" (.jarr [])
  · intro h
    refine alistLookup_setDefault_none _ "keywords" (.jarr []) ?_
    rw [alistLookup_setDefault_ne _ _ _ _ (by decide),
      alistLookup_setDefault_ne _ _ _ _ (by decide),
      alistLookup_setDefault_ne _ _ _ _ (by decide)]
    exact h

theorem applyDefaults_sku (fs : List (String × JValue)) :
    (alistLookup (applyDefaults fs) "sku").isSome ∧
    (alistLookup fs "sku" = none →
      alistLookup (applyDefaults fs) "sku" = some .jnull) := by
  rw [applyDefaults_eq]
  constructor
  · exact alistLookup_setDefault_isSome _ "sku" .jnull
  · intro h
    refine alistLookup_setDefault_none _ "sku" .jnull ?_
    rw [alistLookup_setDefault_ne _ _ _ _ (by decide),
      alistLookup_setDefault_ne _ _ _ _ (by decide),
      alistLookup_setDefault_ne _ _ _ _ (by decide),
      alistLookup_setDefault_ne _ _ _ _ (by decide)]
    exact h

theorem normalizeOut_facts (fields f3 : List (String × JValue))
    (htype : alistLookup f3 "type" = some (.jstr "product"))
    (hmeta : (alistLookup f3 "meta").isSome)
    (hpres : ∀ k, k ≠ "type" → k ≠ "meta" → alistLookup f3 k = alistLookup fields k)
    (hsrc : ∀ sv, alistLookup fields "source" = some sv →
      ∃ metaFs, alistLookup f3 "meta" = some (.jobj metaFs) ∧
        alistLookup metaFs "source" =
          some (if sv.truthy = true then sv else .jstr "Qualiwo")) :
    NormalizedItemOk fields (applyDefaults f3) := by
  refine ⟨?_, ?_, ?_, ?_, ?_, ?_, ?_, ?_, ?_, ?_, ?_, ?_, ?_⟩
  · rw [applyDefaults_type]
    exact htype
  · exact (applyDefaults_brand f3).1
  · exact (applyDefaults_short_description f3).1
  · exact (applyDefaults_tags f3).1
  · exact (applyDefaults_keywords f3).1
  · exact (applyDefaults_sku f3).1
  · rw [applyDefaults_meta]
    exact hmeta
  · intro h
    exact (applyDefaults_brand f3).2
      (by rw [hpres "brand" (by decide) (by decide)]; exact h)
  · intro h
    exact (applyDefaults_short_description f3).2
      (by rw [hpres "short_description" (by decide) (by decide)]; exact h)
  · intro h
    exact (applyDefaults_tags f3).2
      (by rw [hpres "tags" (by decide) (by decide)]; exact h)
  · intro h
    exact (applyDefaults_keywords f3).2
      (by rw [hpres "keywords" (by decide) (by decide)]; exact h)
  · intro h
    exact (applyDefaults_sku f3).2
      (by rw [hpres "sku" (by decide) (by decide)]; exact h)
  · intro sv hsv
    obtain ⟨metaFs, hm1, hm2⟩ := hsrc sv hsv
    refine ⟨metaFs, ?_, hm2⟩
    rw [applyDefaults_meta]
    exact hm1

theorem normalizedOk_shape1 (fields : List (String × JValue)) (mv : JValue)
    (hm : alistLookup (alistSet fields "type" (.jstr "product")) "meta" = some mv)
    (hs : alistLookup (alistSet fields "type" (.jstr "product")) "source" = none) :
    NormalizedItemOk fields (applyDefaults (alistSet fields "type" (.jstr "product"))) := by
  refine normalizeOut_facts fields _ ?_ ?_ ?_ ?_
  · exact alistLookup_set_self fields "type" _
  · rw [hm]
    rfl
  · exact fun k hk1 _ => alistLookup_set_ne fields "type" k _ hk1
  · intro sv hsv
    exfalso
    rw [alistLookup_set_ne fields "type" "source" _ (by decide), hsv] at hs
    exact Option.noConfusion hs

theorem normalizedOk_shape2 (fields : List (String × JValue))
    (hs : alistLookup (alistSet (alistSet fields "type" (.jstr "product")) "meta"
      (.jobj [])) "source" = none) :
    NormalizedItemOk fields
      (applyDefaults (alistSet (alistSet fields "type" (.jstr "product")) "meta"
        (.jobj []))) := by
  refine normalizeOut_facts fields _ ?_ ?_ ?_ ?_
  · rw [alistLookup_set_ne _ _ _ _ (by decide)]
    exact alistLookup_set_self fields "type" _
  · rw [alistLookup_set_self]
    rfl
  · intro k hk1 hk2
    rw [alistLookup_set_ne _ _ _ _ hk2, alistLookup_set_ne _ _ _ _ hk1]
  · intro sv hsv
    exfalso
    rw [alistLookup_set_ne _ _ _ _ (by decide),
      alistLookup_set_ne _ _ _ _ (by decide), hsv] at hs
    exact Option.noConfusion hs

theorem normalizedOk_shape3 (fields : List (String × JValue)) (srcv : JValue)
    (hs : alistLookup (alistSet (alistSet fields "type" (.jstr "product")) "meta"
      (.jobj [])) "source" = some srcv) :
    NormalizedItemOk fields
      (applyDefaults (alistSet
        (alistSet (alistSet fields "type" (.jstr "product")) "meta" (.jobj []))
        "meta" (.jobj (alistSet [] "source"
          (if srcv.truthy = true then srcv else .jstr "Qualiwo"))))) := by
  refine normalizeOut_facts fields _ ?_ ?_ ?_ ?_
  · rw [alistLookup_set_ne _ _ _ _ (by decide),
      alistLookup_set_ne _ _ _ _ (by decide)]
    exact alistLookup_set_self fields "type" _
  · rw [alistLookup_set_self]
    rfl
  · intro k hk1 hk2
    rw [alistLookup_set_ne _ _ _ _ hk2, alistLookup_set_ne _ _ _ _ hk2,
      alistLookup_set_ne _ _ _ _ hk1]
  · intro sv hsv
    rw [alistLookup_set_ne _ _ _ _ (by decide),
      alistLookup_set_ne _ _ _ _ (by decide), hsv] at hs
    injection hs with hsv2
    subst hsv2
    refine ⟨alistSet [] "source" (if sv.truthy = true then sv else .jstr "Qualiwo"),
      ?_, ?_⟩
    · exact alistLookup_set_self _ "meta" _
    · exact alistLookup_set_self [] "source" _

theorem normalizedOk_shape4 (fields metaFields : List (String × JValue))
    (srcv : JValue)
    (hm : alistLookup (alistSet fields "type" (.jstr "product")) "meta"
      = some (.jobj metaFields))
    (hs : alistLookup (alistSet fields "type" (.jstr "product")) "source"
      = some srcv) :
    NormalizedItemOk fields
      (applyDefaults (alistSet (alistSet fields "type" (.jstr "product")) "meta"
        (.jobj (alistSet metaFields "source"
          (if srcv.truthy = true then srcv else .jstr "Qualiwo"))))) := by
  refine normalizeOut_facts fields _ ?_ ?_ ?_ ?_
  · rw [alistLookup_set_ne _ _ _ _ (by decide)]
    exact alistLookup_set_self fields "type" _
  · rw [alistLookup_set_self]
    rfl
  · intro k hk1 hk2
    rw [alistLookup_set_ne _ _ _ _ hk2, alistLookup_set_ne _ _ _ _ hk1]
  · intro sv hsv
    rw [alistLookup_set_ne _ _ _ _ (by decide), hsv] at hs
    injection hs with hsv2
    subst hsv2
    refine ⟨alistSet metaFields "source"
      (if sv.truthy = true then sv else .jstr "Qualiwo"), ?_, ?_⟩
    · exact alistLookup_set_self _ "meta" _
    · exact alistLookup_set_self metaFields "source" _

theorem normalizeItem_facts (fields out : List (String × JValue))
    (h : normalizeItem (.jobj fields) = Except.ok out) :
    NormalizedItemOk fields out := by
  simp only [normalizeItem] at h
  rcases hm : alistLookup (alistSet fields "type" (.jstr "product")) "meta" with _ | mv
  · simp only [hm, if_true] at h
    rcases hs : alistLookup (alistSet (alistSet fields "type" (.jstr "product"))
        "meta" (.jobj [])) "source" with _ | srcv
    · simp only [hs, exceptPure, exceptBind_ok] at h
      injection h with h2
      subst h2
      exact normalizedOk_shape2 fields hs
    · simp only [hs, alistLookup_set_self, exceptPure, exceptBind_ok] at h
      injection h with h2
      subst h2
      exact normalizedOk_shape3 fields srcv hs
  · cases mv with
    | jnull =>
        simp only [hm, if_true] at h
        rcases hs : alistLookup (alistSet (alistSet fields "type" (.jstr "product"))
            "meta" (.jobj [])) "source" with _ | srcv
        · simp only [hs, exceptPure, exceptBind_ok] at h
          injection h with h2
          subst h2
          exact normalizedOk_shape2 fields hs
        · simp only [hs, alistLookup_set_self, exceptPure, exceptBind_ok] at h
          injection h with h2
          subst h2
          exact normalizedOk_shape3 fields srcv hs
    | jobj metaFields =>
        simp only [hm, Bool.false_eq_true, if_false] at h
        rcases hs : alistLookup (alistSet fields "type" (.jstr "product"))
            "source" with _ | srcv
        · simp only [hs, exceptPure, exceptBind_ok] at h
          injection h with h2
          subst h2
          exact normalizedOk_shape1 fields _ hm hs
        · simp only [hs, hm, exceptPure, exceptBind_ok] at h
          injection h with h2
          subst h2
          exact normalizedOk_shape4 fields metaFields srcv hm hs
    | jbool b =>
        simp only [hm, Bool.false_eq_true, if_false] at h
        rcases hs : alistLookup (alistSet fields "type" (.jstr "product"))
            "source" with _ | srcv
        · simp only [hs, exceptPure, exceptBind_ok] at h
          injection h with h2
          subst h2
          exact normalizedOk_shape1 fields _ hm hs
        · simp only [hs, hm, exceptBind_err] at h
          exact Except.noConfusion h
    | jnum n =>
        simp only [hm, Bool.false_eq_true, if_false] at h
        rcases hs : alistLookup (alistSet fields "type" (.jstr "product"))
            "source" with _ | srcv
        · simp only [hs, exceptPure, exceptBind_ok] at h
          injection h with h2
          subst h2
          exact normalizedOk_shape1 fields _ hm hs
        · simp only [hs, hm, exceptBind_err] at h
          exact Except.noConfusion h
    | jstr s =>
        simp only [hm, Bool.false_eq_true, if_false] at h
        rcases hs : alistLookup (alistSet fields "type" (.jstr "product"))
            "source" with _ | srcv
        · simp only [hs, exceptPure, exceptBind_ok] at h
          injection h with h2
          subst h2
          exact normalizedOk_shape1 fields _ hm hs
        · simp only [hs, hm, exceptBind_err] at h
          exact Except.noConfusion h
    | jarr xs =>
        simp only [hm, Bool.false_eq_true, if_false] at h
        rcases hs : alistLookup (alistSet fields "type" (.jstr "product"))
            "source" with _ | srcv
        · simp only [hs, exceptPure, exceptBind_ok] at h
          injection h with h2
          subst h2
          exact normalizedOk_shape1 fields _ hm hs
        · simp only [hs, hm, exceptBind_err] at h
          exact Except.noConfusion h

theorem mapM_normalizeItem_ok :
    ∀ (elems : List JValue) (normalized : List (List (String × JValue))),
      elems.mapM normalizeItem = Except.ok normalized →
      ∀ fs, fs ∈ normalized → alistLookup fs "type" = some (.jstr "product")
  | [], normalized, h => by
      rw [List.mapM_nil] at h
      rw [exceptPure] at h
      injection h with h2
      subst h2
      intro fs hfs
      exact absurd hfs (List.not_mem_nil fs)
  | e :: rest, normalized, h => by
      rw [List.mapM_cons] at h
      rcases ha : normalizeItem e with err | fsOut
      · simp only [ha, exceptBind_err] at h
        exact Except.noConfusion h
      · simp only [ha, exceptBind_ok] at h
        rcases hrest : rest.mapM normalizeItem with err | tl
        · simp only [hrest, exceptBind_err] at h
          exact Except.noConfusion h
        · simp only [hrest, exceptBind_ok, exceptPure] at h
          injection h with h2
          subst h2
          intro fs hfs
          rcases List.mem_cons.mp hfs with h3 | h3
          · subst h3
            cases e with
            | jobj fields => exact (normalizeItem_facts fields fs ha).1
            | jnull => exact Except.noConfusion ha
            | jbool b => exact Except.noConfusion ha
            | jnum n => exact Except.noConfusion ha
            | jstr s => exact Except.noConfusion ha
            | jarr xs => exact Except.noConfusion ha
          · exact mapM_normalizeItem_ok rest tl hrest fs h3

theorem product_search_run_items (query : String) (body : JValue) (out : JValue)
    (h : product_search_run query (.response 200 (.ok body)) = Except.ok out) :
    ∃ (results : JValue) (elems : List JValue)
      (normalized : List (List (String × JValue))) (totalFound : JValue)
      (summary : String),
      pyIter results = Except.ok elems ∧
      elems.mapM normalizeItem = Except.ok normalized ∧
      out = .jobj [("items", .jarr (normalized.map JValue.jobj)),
                   ("totalFound", totalFound), ("productsSummary", .jstr summary)] := by
  simp only [product_search_run] at h
  rw [if_neg (show ¬((200 : Nat) ≠ 200) by decide)] at h
  simp only [exceptPure, exceptBind_ok] at h
  rcases hres : dictGetD body "results" (.jarr []) with e | results
  · simp only [hres, exceptBind_err] at h
    exact Except.noConfusion h
  · simp only [hres, exceptBind_ok] at h
    rcases hlen : pyLen results with e | rlen
    · simp only [hlen, exceptBind_err] at h
      exact Except.noConfusion h
    · simp only [hlen, exceptBind_ok] at h
      rcases hcount : dictGetD body "count" (.jnum (Int.ofNat rlen)) with e | totalFound
      · simp only [hcount, exceptBind_err] at h
        exact Except.noConfusion h
      · simp only [hcount, exceptBind_ok] at h
        rcases hiter : pyIter results with e | elems
        · simp only [hiter, exceptBind_err] at h
          exact Except.noConfusion h
        · simp only [hiter, exceptBind_ok] at h
          rcases hmapM : elems.mapM normalizeItem with e | normalized
          · simp only [hmapM, exceptBind_err] at h
            exact Except.noConfusion h
          · simp only [hmapM, exceptBind_ok] at h
            cases hemp : normalized.isEmpty
            · simp only [hemp, Bool.false_eq_true, if_false] at h
              rcases hlines : (normalized.take 5).enum.mapM
                  (fun ip => summaryLine ip.1 ip.2) with e | lines
              · simp only [hlines, exceptBind_err] at h
                exact Except.noConfusion h
              · simp only [hlines, exceptBind_ok, exceptPure] at h
                injection h with h2
                subst h2
                exact ⟨results, elems, normalized, totalFound, _, hiter, hmapM, rfl⟩
            · simp only [hemp, if_true, exceptPure, exceptBind_ok] at h
              injection h with h2
              subst h2
              exact ⟨results, elems, normalized, totalFound, _, hiter, hmapM, rfl⟩

/-- C9 (counterexample): a 200 response whose single result item is an empty
object — lacking both an identifying id and a name — is not degraded to an
empty result set: the normalized item is returned and totalFound echoes the
count, contradicting the claimed empty-list degradation on that shape. -/
theorem C9_shape_counterexample :
    jGet (product_search_tool "q" 10 itemNoIdOutcome) "items" =
      some (.jarr [.jobj [("type", .jstr "product"), ("meta", .jobj []),
        ("brand", .jnull), ("short_description", .jnull), ("tags", .jarr []),
        ("keywords", .jarr []), ("sku", .jnull)]]) ∧
    jGet (product_search_tool "q" 10 itemNoIdOutcome) "totalFound"
      = some (.jnum 1) :=
  ⟨rfl, rfl⟩

/-- C9 (amended): the search tool is a total function of the collaborator
outcome; every dynamic error inside the handler degrades to the empty result
with a summary stating the error, as do transport failures and non-200
statuses; on success, result items that are JSON objects are normalized
(type product, brand / short_description / sku defaulting to null, tags /
keywords defaulting to the empty list, meta present, meta.source set exactly
when the raw item carries a source field) and are included whether or not
they carry an id or a name. -/
theorem C9_amended_search_degradation (query : String) (limit : Int) :
    (∀ e outcome, product_search_run query outcome = Except.error e →
      product_search_tool query limit outcome
        = emptySearchResult ("Error during search: " ++ e)) ∧
    (∀ m, product_search_tool query limit (.transportError m)
        = emptySearchResult ("Error during search: " ++ m)) ∧
    (∀ (status : Nat) (body : Except String JValue), status ≠ 200 →
      product_search_tool query limit (.response status body)
        = emptySearchResult ("Error during search: Status " ++ toString status)) ∧
    (∀ fields out, normalizeItem (.jobj fields) = Except.ok out →
      NormalizedItemOk fields out) ∧
    (∀ (elems : List JValue) (normalized : List (List (String × JValue))),
      List.mapM normalizeItem elems = Except.ok normalized →
      ∀ fs, fs ∈ normalized → alistLookup fs "type" = some (.jstr "product")) ∧
    (∀ (body out : JValue),
      product_search_run query (.response 200 (.ok body)) = Except.ok out →
      ∃ (results : JValue) (elems : List JValue)
        (normalized : List (List (String × JValue))) (totalFound : JValue)
        (summary : String),
        pyIter results = Except.ok elems ∧
        List.mapM normalizeItem elems = Except.ok normalized ∧
        out = .jobj [("items", .jarr (normalized.map JValue.jobj)),
                     ("totalFound", totalFound), ("productsSummary", .jstr summary)]) := by
  refine ⟨?_, ?_, ?_, ?_, ?_, ?_⟩
  · intro e outcome he
    unfold product_search_tool
    rw [he]
  · intro m
    rfl
  · intro st body hst
    have hrun : product_search_run query (.response st body)
        = Except.ok (emptySearchResult ("Error during search: Status " ++ toString st)) := by
      simp only [product_search_run]
      rw [if_pos hst]
      rfl
    unfold product_search_tool
    rw [hrun]
  · exact fun fields out h => normalizeItem_facts fields out h
  · exact mapM_normalizeItem_ok
  · exact fun body out h => product_search_run_items query body out h

/-- Witness for C9 (amended): a transport failure and a 500 status both
degrade to the empty result with the error in the summary. -/
theorem C9_amended_search_degradation_witness :
    product_search_tool "chaussures" 10 (.transportError "boom")
      = emptySearchResult "Error during search: boom" ∧
    product_search_tool "chaussures" 10 (.response 500 (.ok .jnull))
      = emptySearchResult "Error during search: Status 500" :=
  ⟨(C9_amended_search_degradation "chaussures" 10).2.1 "boom",
   (C9_amended_search_degradation "chaussures" 10).2.2.1 500 (.ok .jnull) (by decide)⟩

end Qualiwo
